import Mathlib

/-!
Shallow embedding of the Flamingods ESP lighting controllers
(src/esps/crown and src/esps/stage) in Lean 4.

Times are `millis()` values: `unsigned long` is 32-bit on the target, so
subtraction of timestamps is modelled by 32-bit wraparound subtraction
`sub32`.  8-bit counters (`uint8_t`) are `Nat` values taken `% 256` at the
points where the C++ arithmetic wraps.  Randomness (`random8`, `random16`
of FastLED) is modelled by an injected oracle `rng : Nat -> Nat`, each
draw `rng k` being reduced by the bound the FastLED call guarantees
(`% 256` for `random8()`, `% limit` for `random16(limit)` and
`% limit` for `random8(limit)`).
-/

set_option maxRecDepth 100000

namespace Flamingods

/-- 2^32, the modulus of `unsigned long` arithmetic on the ESP32. -/
def U32 : Nat := 4294967296

/-- 32-bit wraparound subtraction, as in `millis() - startTime`. -/
def sub32 (a b : Nat) : Nat := (a % U32 + U32 - b % U32) % U32

/-- One RGB pixel (`CRGB` of FastLED): three 8-bit channels. -/
structure CRGB where
  r : Nat
  g : Nat
  b : Nat
deriving DecidableEq, Repr

/-- `CRGB::White`. -/
def CRGB.White : CRGB := ⟨255, 255, 255⟩

/-- `CRGB::Black`. -/
def CRGB.Black : CRGB := ⟨0, 0, 0⟩

/-- FastLED `scale8`: `(i * scale) / 256` on 8-bit values. -/
def scale8 (i s : Nat) : Nat := i * s / 256

/-- FastLED `CRGB::fadeToBlackBy(amount)`: scales every channel by
`255 - amount`. -/
def CRGB.fadeToBlackBy (c : CRGB) (amount : Nat) : CRGB :=
  ⟨scale8 c.r (255 - amount % 256), scale8 c.g (255 - amount % 256),
   scale8 c.b (255 - amount % 256)⟩

/-- Pixelwise saturating addition, FastLED `CRGB::operator+=`
(`qadd8` per channel). -/
def CRGB.qadd (c d : CRGB) : CRGB :=
  ⟨min 255 (c.r + d.r), min 255 (c.g + d.g), min 255 (c.b + d.b)⟩

/-- FastLED `sin8_C`, the 8-bit sine approximation (library code the
renderers call; transcribed from FastLED's C implementation). -/
def sin8 (theta : Nat) : Nat :=
  let t := theta % 256
  let offset0 := if t % 128 ≥ 64 then 255 - t % 256 else t
  let offset := offset0 % 64
  let secoffset0 := offset % 16
  let secoffset := if t % 128 ≥ 64 then secoffset0 + 1 else secoffset0
  let sec := offset / 16
  let bTable := [0, 90, 49, 117]
  let mTable := [49, 27, 41, 10]
  let b := bTable.getD sec 0
  let m16 := mTable.getD sec 0
  let mx := (m16 * secoffset) / 16
  let y : Int := (mx : Int) + (b : Int)
  let y2 : Int := if t ≥ 128 then -y else y
  ((y2 + 128).toNat) % 256

/-- Integer HSV-to-RGB conversion standing for FastLED's
`hsv2rgb_rainbow` (library code; the claims never inspect the produced
channel values, only which library call a renderer makes). -/
def hsv2rgb (h s v : Nat) : CRGB :=
  let h8 := h % 256
  let seg := h8 / 43
  let rem := (h8 % 43) * 6
  let p := scale8 v (255 - s % 256)
  let q := scale8 v (255 - scale8 (s % 256) rem)
  let t := scale8 v (255 - scale8 (s % 256) (255 - rem))
  match seg with
  | 0 => ⟨v % 256, t, p⟩
  | 1 => ⟨q, v % 256, p⟩
  | 2 => ⟨p, v % 256, t⟩
  | 3 => ⟨p, q, v % 256⟩
  | 4 => ⟨t, p, v % 256⟩
  | _ => ⟨v % 256, p, q⟩

/-- `leds[i] = c`: write one pixel (in-bounds by construction in the
source; out-of-range `List.set` is inert, and the write logs let us prove
every logged index is in range). -/
def setLed (buf : List CRGB) (i : Nat) (c : CRGB) : List CRGB := buf.set i c

/-- A `for` loop writing `leds[i] = f i` for each `i` in `idxs`. -/
def writeEach (buf : List CRGB) (idxs : List Nat) (f : Nat → CRGB) : List CRGB :=
  idxs.foldl (fun b i => setLed b i (f i)) buf



/-- `setAllLeds(color)`: the loop `for i in [0, n) : leds[i] = color`. -/
def setAllLeds (buf : List CRGB) (n : Nat) (c : CRGB) : List CRGB :=
  writeEach buf (List.range n) (fun _ => c)


/-- A loop writing explicit (index, color) pairs in order, for loops whose
written color varies per iteration rather than per index. -/
def writePixels (buf : List CRGB) (ps : List (Nat × CRGB)) : List CRGB :=
  ps.foldl (fun b p => setLed b p.1 p.2) buf

/-- An HTTP response as the device handlers build it: status code and the
JSON body fields the claims inspect. -/
structure HttpResponse where
  code : Nat
  status : String
  message : Option String := none
  plan : Option String := none
  action_taken : Option String := none
deriving DecidableEq, Repr

namespace Crown

/-- `NUM_LEDS` of the crown device (src/esps/crown/include/led_plans.h). -/
def NUM_LEDS : Nat := 200

/-- `BRIGHTNESS` (src/esps/crown/include/led_plans.h). -/
def BRIGHTNESS : Nat := 100

/-- `enum LightingPlan` of the crown device. -/
inductive LightingPlan where
  | PLAN_IDLE
  | PLAN_BUTTON
  | PLAN_WIFI_FALLBACK
deriving DecidableEq, Repr

open LightingPlan

/-- The crown `LEDPlans` controller state together with the `leds` buffer
(`CRGB leds[NUM_LEDS]`, the translation-unit global the class writes). -/
structure LEDPlans where
  currentPlan : LightingPlan
  lastUpdate : Nat
  animationStep : Nat
  hue : Nat
  brightness : Nat
  idleHue : Nat
  idleBrightness : Nat
  haloPulseStep : Nat
  buttonStartTime : Nat
  buttonActive : Bool
  partyHue : Nat
  partySpeed : Nat
  partyPattern : Nat
  fallbackHue : Nat
  fallbackBrightness : Nat
  fallbackPulseStep : Nat
  runningPixelPos : Nat
  runningPixelHue : Nat
  leds : List CRGB
deriving DecidableEq, Repr

/-- `LEDPlans::LEDPlans()`; the global `leds` array starts
zero-initialised. -/
def LEDPlans.init : LEDPlans where
  currentPlan := PLAN_IDLE
  lastUpdate := 0
  animationStep := 0
  hue := 0
  brightness := BRIGHTNESS
  idleHue := 32
  idleBrightness := 50
  haloPulseStep := 0
  buttonStartTime := 0
  buttonActive := false
  partyHue := 0
  partySpeed := 0
  partyPattern := 0
  fallbackHue := 32
  fallbackBrightness := 50
  fallbackPulseStep := 0
  runningPixelPos := 0
  runningPixelHue := 0
  leds := List.replicate NUM_LEDS CRGB.Black

/-- `LEDPlans::setPlan(plan)`; `now` is the `millis()` value read inside. -/
def LEDPlans.setPlan (s : LEDPlans) (plan : LightingPlan) (now : Nat) :
    LEDPlans :=
  let s1 := { s with currentPlan := plan, animationStep := 0, lastUpdate := now }
  match plan with
  | PLAN_IDLE =>
      { s1 with idleHue := 32, idleBrightness := 50, haloPulseStep := 0 }
  | PLAN_BUTTON =>
      { s1 with buttonStartTime := now, buttonActive := true, partyHue := 0,
                partySpeed := 0, partyPattern := 0 }
  | PLAN_WIFI_FALLBACK =>
      { s1 with fallbackHue := 32, fallbackBrightness := 50,
                fallbackPulseStep := 0, runningPixelPos := 0,
                runningPixelHue := 0 }

/-- `LEDPlans::getCurrentPlan()`. -/
def LEDPlans.getCurrentPlan (s : LEDPlans) : LightingPlan := s.currentPlan

/-- `LEDPlans::getHaloColor(brightness)`: warm amber.  The float products
`b * 0.7` and `b * 0.3` truncate on conversion to `uint8_t`; modelled by
integer division. -/
def getHaloColor (b : Nat) : CRGB :=
  ⟨b % 256, b * 7 / 10 % 256, b * 3 / 10 % 256⟩

/-- `LEDPlans::getPartyColor(hue, brightness)`: `CHSV(hue, 255, brightness)`
converted to RGB. -/
def getPartyColor (hue b : Nat) : CRGB := hsv2rgb hue 255 b

/-- `LEDPlans::addGlitter(chanceOfGlitter)`: if `random8() < chance`, adds
white (saturating) to one `random16(NUM_LEDS)` pixel.  Returns the new
buffer and written indices; `rng k` and `rng (k+1)` are the two draws. -/
def addGlitter (buf : List CRGB) (chance : Nat) (rng : Nat → Nat) (k : Nat) :
    List CRGB × List Nat :=
  if rng k % 256 < chance % 256 then
    let i := rng (k + 1) % NUM_LEDS
    (setLed buf i (CRGB.qadd (buf.getD i CRGB.Black) CRGB.White), [i])
  else (buf, [])

/-- `LEDPlans::updateIdle()`: one halo pulse step.  Returns the new state
and the indices written this call. -/
def LEDPlans.updateIdle (s : LEDPlans) : LEDPlans × List Nat :=
  let step := (s.haloPulseStep + 1) % 256
  let pulseBrightness := sin8 (step * 2 % 256)
  let leds := setAllLeds s.leds NUM_LEDS ⟨0, 0, pulseBrightness⟩
  let step2 := if 127 < step then 0 else step
  ({ s with haloPulseStep := step2, leds := leds }, List.range NUM_LEDS)

/-- `LEDPlans::updateButton()`: party mode; expires to Idle via
`setPlan(PLAN_IDLE)` once `millis() - buttonStartTime` exceeds 10000 ms,
drawing nothing that call.  `rng` supplies the FastLED random draws:
pattern 1 uses `rng (2*i)`, `rng (2*i+1)` per pixel, pattern 3 uses
`rng (500+2*k)`, `rng (501+2*k)` per sparkle, glitter uses `rng 1000`,
`rng 1001`. -/
def LEDPlans.updateButton (s : LEDPlans) (now : Nat) (rng : Nat → Nat) :
    LEDPlans × List Nat :=
  let elapsed := sub32 now s.buttonStartTime
  if 10000 < elapsed then
    (({ s with currentPlan := PLAN_IDLE } : LEDPlans).setPlan PLAN_IDLE now, [])
  else
    let partyHue := (s.partyHue + 3) % 256
    let partySpeed := (s.partySpeed + 1) % 256
    let partyPattern := elapsed / 1000 % 4
    let base :=
      if partyPattern = 0 then
        (writeEach s.leds (List.range NUM_LEDS)
          (fun i => getPartyColor ((partyHue + i * 3) % 256) 255),
         List.range NUM_LEDS)
      else if partyPattern = 1 then
        (writeEach s.leds (List.range NUM_LEDS)
          (fun i =>
            if rng (2 * i) % 256 < 128 then
              getPartyColor ((partyHue + rng (2 * i + 1) % 64) % 256) 255
            else CRGB.Black),
         List.range NUM_LEDS)
      else if partyPattern = 2 then
        (writeEach s.leds (List.range NUM_LEDS)
          (fun i =>
            if i % 2 = 0 then getPartyColor partyHue 255
            else getPartyColor ((partyHue + 128) % 256) 255),
         List.range NUM_LEDS)
      else
        let cleared := setAllLeds s.leds NUM_LEDS CRGB.Black
        let ps := (List.range (NUM_LEDS / 4)).map (fun k =>
          (rng (500 + 2 * k) % NUM_LEDS,
           getPartyColor ((partyHue + rng (501 + 2 * k) % 64) % 256) 255))
        (writePixels cleared ps, List.range NUM_LEDS ++ ps.map Prod.fst)
    let glit := addGlitter base.1 80 rng 1000
    ({ s with partyHue := partyHue, partySpeed := partySpeed,
              partyPattern := partyPattern, leds := glit.1 },
     base.2 ++ glit.2)

/-- `LEDPlans::updateWiFiFallback()`: halo pulse plus three comets with
trailing fades. -/
def LEDPlans.updateWiFiFallback (s : LEDPlans) : LEDPlans × List Nat :=
  let fallbackPulseStep := (s.fallbackPulseStep + 1) % 256
  let runningPixelPos := (s.runningPixelPos + 1) % 256
  let runningPixelHue := (s.runningPixelHue + 5) % 256
  let pulseBrightness := sin8 (fallbackPulseStep * 2 % 256)
  let haloColor := getHaloColor pulseBrightness
  let base := setAllLeds s.leds NUM_LEDS haloColor
  let cometPixel := fun i => (runningPixelPos + i * 30) % NUM_LEDS
  let cometColor := fun i =>
    getPartyColor ((runningPixelHue + i * 85) % 256) 255
  let trail := fun i =>
    (List.range 3).filterMap (fun j0 =>
      let j := j0 + 1
      if cometPixel i + j < NUM_LEDS then
        some (cometPixel i + j, (cometColor i).fadeToBlackBy (j * 50))
      else none)
  let writesOf := fun i =>
    if cometPixel i < NUM_LEDS then (cometPixel i, cometColor i) :: trail i
    else []
  let ps := writesOf 0 ++ writesOf 1 ++ writesOf 2
  let leds := writePixels base ps
  let fallbackPulseStep2 := if 127 < fallbackPulseStep then 0 else fallbackPulseStep
  let runningPixelPos2 := if NUM_LEDS ≤ runningPixelPos then 0 else runningPixelPos
  let runningPixelHue2 := if 255 < runningPixelHue then 0 else runningPixelHue
  ({ s with fallbackPulseStep := fallbackPulseStep2,
            runningPixelPos := runningPixelPos2,
            runningPixelHue := runningPixelHue2, leds := leds },
   List.range NUM_LEDS ++ ps.map Prod.fst)

/-- `LEDPlans::update()`: dispatch on the current plan, then record the
`millis()` read in `lastUpdate`. -/
def LEDPlans.update (s : LEDPlans) (now : Nat) (rng : Nat → Nat) :
    LEDPlans × List Nat :=
  let r :=
    match s.currentPlan with
    | PLAN_IDLE => s.updateIdle
    | PLAN_BUTTON => s.updateButton now rng
    | PLAN_WIFI_FALLBACK => s.updateWiFiFallback
  ({ r.1 with lastUpdate := now }, r.2)

/-- The crown `main.cpp` module state: the global status variables
(`currentPlan`, `wifiConnected`, OTA flags) plus the `LEDPlans`
controller. -/
structure Device where
  currentPlan : LightingPlan
  wifiConnected : Bool
  otaInProgress : Bool
  otaStartTime : Nat
  otaProgress : Nat
  ctrl : LEDPlans
deriving DecidableEq, Repr

/-- Device state after `setup()` when WiFi connected. -/
def Device.init : Device where
  currentPlan := PLAN_IDLE
  wifiConnected := true
  otaInProgress := false
  otaStartTime := 0
  otaProgress := 0
  ctrl := LEDPlans.init.setPlan PLAN_IDLE 0

/-- `handleIdle` (POST /idle). -/
def handleIdle (d : Device) (now : Nat) : Device × HttpResponse :=
  ({ d with currentPlan := PLAN_IDLE, ctrl := d.ctrl.setPlan PLAN_IDLE now },
   { code := 200, status := "success", plan := some "idle" })

/-- `handleButton` (POST /button). -/
def handleButton (d : Device) (now : Nat) : Device × HttpResponse :=
  ({ d with currentPlan := PLAN_BUTTON, ctrl := d.ctrl.setPlan PLAN_BUTTON now },
   { code := 200, status := "success", plan := some "button" })

/-- `ArduinoOTA.onStart` callback registered in `setupOTA`. -/
def otaOnStart (d : Device) (now : Nat) : Device :=
  { d with otaInProgress := true, otaStartTime := now, otaProgress := 0,
           currentPlan := PLAN_WIFI_FALLBACK,
           ctrl := d.ctrl.setPlan PLAN_WIFI_FALLBACK now }

/-- `ArduinoOTA.onEnd` callback; the device then reboots. -/
def otaOnEnd (d : Device) : Device := { d with otaInProgress := false }

/-- `ArduinoOTA.onError` callback. -/
def otaOnError (d : Device) (now : Nat) : Device :=
  let d1 := { d with otaInProgress := false }
  if d1.wifiConnected then
    { d1 with currentPlan := PLAN_IDLE, ctrl := d1.ctrl.setPlan PLAN_IDLE now }
  else d1

/-- `checkWiFiConnection()`; `wifiNow` is this check's
`WiFi.status() == WL_CONNECTED`. -/
def checkWiFiConnection (d : Device) (wifiNow : Bool) (now : Nat) : Device :=
  if wifiNow then
    if d.wifiConnected = false then
      let d1 := { d with wifiConnected := true }
      if d.currentPlan ≠ PLAN_BUTTON ∧ d.otaInProgress = false then
        { d1 with currentPlan := PLAN_IDLE,
                  ctrl := d1.ctrl.setPlan PLAN_IDLE now }
      else d1
    else d
  else
    if d.wifiConnected = true then
      let d1 := { d with wifiConnected := false }
      if d.currentPlan ≠ PLAN_BUTTON ∧ d.otaInProgress = false then
        { d1 with currentPlan := PLAN_WIFI_FALLBACK,
                  ctrl := d1.ctrl.setPlan PLAN_WIFI_FALLBACK now }
      else d1
    else d

/-- A parsed station JSON document; each field is present or absent, and
ArduinoJson's `doc["x"] | dflt` yields `dflt` when the field is absent. -/
structure StationDoc where
  station_id : Option Int := none
  station_name : Option String := none
  color : Option String := none
  colors : Option (List String) := none
  timestamp : Option Nat := none
deriving DecidableEq, Repr

/-- `handleStationColor` (POST /station-color).  `body` is the result of
`deserializeJson`: `none` models a `DeserializationError`. -/
def handleStationColor (d : Device) (body : Option StationDoc) (now : Nat) :
    Device × HttpResponse :=
  match body with
  | none =>
      (d, { code := 400, status := "error", message := some "Invalid JSON" })
  | some doc =>
      let color := doc.color.getD "unknown"
      let d1 :=
        if color = "red" then
          { d with currentPlan := PLAN_BUTTON,
                   ctrl := d.ctrl.setPlan PLAN_BUTTON now }
        else if color = "green" then
          { d with currentPlan := PLAN_IDLE,
                   ctrl := d.ctrl.setPlan PLAN_IDLE now }
        else if color = "blue" then
          { d with currentPlan := PLAN_WIFI_FALLBACK,
                   ctrl := d.ctrl.setPlan PLAN_WIFI_FALLBACK now }
        else if color = "yellow" then
          { d with currentPlan := PLAN_BUTTON,
                   ctrl := d.ctrl.setPlan PLAN_BUTTON now }
        else if color = "white" then
          { d with currentPlan := PLAN_IDLE,
                   ctrl := d.ctrl.setPlan PLAN_IDLE now }
        else d
      (d1, { code := 200, status := "success",
             action_taken := some "led_pattern_changed" })

/-- `handleStationMixedColor` (POST /station-mixed-color).  The handler
rejects only a missing `colors` field (`!colors` is false for an *empty*
JSON array); any payload carrying a `colors` array switches to
`PLAN_BUTTON`. -/
def handleStationMixedColor (d : Device) (body : Option StationDoc)
    (now : Nat) : Device × HttpResponse :=
  match body with
  | none =>
      (d, { code := 400, status := "error", message := some "Invalid JSON" })
  | some doc =>
      match doc.colors with
      | none =>
          (d, { code := 400, status := "error",
                message := some "No colors array" })
      | some _ =>
          ({ d with currentPlan := PLAN_BUTTON,
                    ctrl := d.ctrl.setPlan PLAN_BUTTON now },
           { code := 200, status := "success",
             action_taken := some "party_mode_activated" })

/-- The `/status` JSON body fields derived from device state
(`ip_address` and `rssi` come from the excluded WiFi collaborator). -/
structure StatusDoc where
  status : String
  current_plan : LightingPlan
  wifi_connected : Bool
  uptime : Nat
  ota_in_progress : Bool
  ota_progress : Nat
deriving DecidableEq, Repr

/-- `handleStatus` (GET /status): a pure read of the module globals. -/
def handleStatus (d : Device) (now : Nat) : StatusDoc where
  status := "success"
  current_plan := d.currentPlan
  wifi_connected := d.wifiConnected
  uptime := now / 1000
  ota_in_progress := d.otaInProgress
  ota_progress := d.otaProgress

/-- The LED-update step of one `loop()` pass
(`ledController.update()`); the module globals are untouched by it. -/
def loopTick (d : Device) (now : Nat) (rng : Nat → Nat) : Device :=
  { d with ctrl := (d.ctrl.update now rng).1 }

end Crown

namespace Stage

/-- `NUM_LEDS` of the stage device (src/esps/stage/include/led_plans.h). -/
def NUM_LEDS : Nat := 100

/-- `BRIGHTNESS` (src/esps/stage/include/led_plans.h). -/
def BRIGHTNESS : Nat := 100

/-- `enum LightingPlan` of the stage device. -/
inductive LightingPlan where
  | PLAN_IDLE
  | PLAN_SKIP
  | PLAN_SHOW
  | PLAN_SPECIAL
deriving DecidableEq, Repr

open LightingPlan

/-- The stage `LEDPlans` controller state together with the `leds`
buffer.  `idlePulseStep`, `showPulseStep` and `specialPulseStep` model
the `static uint8_t pulseStep` locals of `updateIdle`, `updateShow` and
`updateSpecial`: they live for the whole process, are zero-initialised
once, and are touched by nothing but their own renderer — in particular
`setPlan` does not reset them. -/
structure LEDPlans where
  currentPlan : LightingPlan
  lastUpdate : Nat
  animationStep : Nat
  hue : Nat
  brightness : Nat
  idleHue : Nat
  idleBrightness : Nat
  skipStartTime : Nat
  skipActive : Bool
  showPattern : Nat
  showSpeed : Nat
  specialEffect : Nat
  specialStartTime : Nat
  idlePulseStep : Nat
  showPulseStep : Nat
  specialPulseStep : Nat
  leds : List CRGB
deriving DecidableEq, Repr

/-- `LEDPlans::LEDPlans()`; the static pulse counters and the global
`leds` array start zero-initialised. -/
def LEDPlans.init : LEDPlans where
  currentPlan := PLAN_IDLE
  lastUpdate := 0
  animationStep := 0
  hue := 0
  brightness := BRIGHTNESS
  idleHue := 0
  idleBrightness := 50
  skipStartTime := 0
  skipActive := false
  showPattern := 0
  showSpeed := 0
  specialEffect := 0
  specialStartTime := 0
  idlePulseStep := 0
  showPulseStep := 0
  specialPulseStep := 0
  leds := List.replicate NUM_LEDS CRGB.Black

/-- `LEDPlans::setPlan(plan)` of the stage device. -/
def LEDPlans.setPlan (s : LEDPlans) (plan : LightingPlan) (now : Nat) :
    LEDPlans :=
  let s1 := { s with currentPlan := plan, animationStep := 0, lastUpdate := now }
  match plan with
  | PLAN_IDLE => { s1 with idleHue := 0, idleBrightness := 50 }
  | PLAN_SKIP => { s1 with skipStartTime := now, skipActive := true }
  | PLAN_SHOW => { s1 with showPattern := 0, showSpeed := 0 }
  | PLAN_SPECIAL => { s1 with specialEffect := 0, specialStartTime := now }

/-- `LEDPlans::getCurrentPlan()`. -/
def LEDPlans.getCurrentPlan (s : LEDPlans) : LightingPlan := s.currentPlan

/-- `LEDPlans::updateIdle()`: pulsing green, via the static counter. -/
def LEDPlans.updateIdle (s : LEDPlans) : LEDPlans × List Nat :=
  let step := (s.idlePulseStep + 1) % 256
  let b := sin8 (step * 2 % 256)
  let leds := setAllLeds s.leds NUM_LEDS ⟨0, b, 0⟩
  let step2 := if 127 < step then 0 else step
  ({ s with idlePulseStep := step2, leds := leds }, List.range NUM_LEDS)

/-- `LEDPlans::updateSkip()`: white-flash phase table on
`millis() - skipStartTime`; at 600 ms and beyond, returns to Idle via
`setPlan(PLAN_IDLE)` without writing any pixel that call. -/
def LEDPlans.updateSkip (s : LEDPlans) (now : Nat) : LEDPlans × List Nat :=
  let elapsed := sub32 now s.skipStartTime
  if elapsed < 150 then
    ({ s with leds := setAllLeds s.leds NUM_LEDS CRGB.White },
     List.range NUM_LEDS)
  else if elapsed < 300 then
    ({ s with leds := setAllLeds s.leds NUM_LEDS CRGB.Black },
     List.range NUM_LEDS)
  else if elapsed < 450 then
    ({ s with leds := setAllLeds s.leds NUM_LEDS CRGB.White },
     List.range NUM_LEDS)
  else if elapsed < 600 then
    ({ s with leds := setAllLeds s.leds NUM_LEDS CRGB.Black },
     List.range NUM_LEDS)
  else
    (({ s with currentPlan := PLAN_IDLE } : LEDPlans).setPlan PLAN_IDLE now, [])

/-- `LEDPlans::updateShow()`: pulsing red, via the static counter, with
the faster multiplier 3 and wrap threshold 85. -/
def LEDPlans.updateShow (s : LEDPlans) : LEDPlans × List Nat :=
  let step := (s.showPulseStep + 1) % 256
  let b := sin8 (step * 3 % 256)
  let leds := setAllLeds s.leds NUM_LEDS ⟨b, 0, 0⟩
  let step2 := if 85 < step then 0 else step
  ({ s with showPulseStep := step2, leds := leds }, List.range NUM_LEDS)

/-- `LEDPlans::updateSpecial()`: pulsing blue, via the static counter. -/
def LEDPlans.updateSpecial (s : LEDPlans) : LEDPlans × List Nat :=
  let step := (s.specialPulseStep + 1) % 256
  let b := sin8 (step * 2 % 256)
  let leds := setAllLeds s.leds NUM_LEDS ⟨0, 0, b⟩
  let step2 := if 127 < step then 0 else step
  ({ s with specialPulseStep := step2, leds := leds }, List.range NUM_LEDS)

/-- `LEDPlans::update()` of the stage device. -/
def LEDPlans.update (s : LEDPlans) (now : Nat) : LEDPlans × List Nat :=
  let r :=
    match s.currentPlan with
    | PLAN_IDLE => s.updateIdle
    | PLAN_SKIP => s.updateSkip now
    | PLAN_SHOW => s.updateShow
    | PLAN_SPECIAL => s.updateSpecial
  ({ r.1 with lastUpdate := now }, r.2)

/-- The stage `main.cpp` module state: global `currentPlan` and
`wifiConnected` plus the controller. -/
structure Device where
  currentPlan : LightingPlan
  wifiConnected : Bool
  ctrl : LEDPlans
deriving DecidableEq, Repr

/-- Stage device state after `setup()` with WiFi connected. -/
def Device.init : Device where
  currentPlan := PLAN_IDLE
  wifiConnected := true
  ctrl := LEDPlans.init.setPlan PLAN_IDLE 0

/-- `handleSkip` (POST /skip). -/
def handleSkip (d : Device) (now : Nat) : Device × HttpResponse :=
  ({ d with currentPlan := PLAN_SKIP, ctrl := d.ctrl.setPlan PLAN_SKIP now },
   { code := 200, status := "success", plan := some "skip" })

/-- `handleShow` (POST /show). -/
def handleShow (d : Device) (now : Nat) : Device × HttpResponse :=
  ({ d with currentPlan := PLAN_SHOW, ctrl := d.ctrl.setPlan PLAN_SHOW now },
   { code := 200, status := "success", plan := some "show" })

/-- The stage `/status` JSON body fields derived from device state. -/
structure StatusDoc where
  status : String
  current_plan : LightingPlan
  wifi_connected : Bool
  uptime : Nat
deriving DecidableEq, Repr

/-- Stage `handleStatus` (GET /status). -/
def handleStatus (d : Device) (now : Nat) : StatusDoc where
  status := "success"
  current_plan := d.currentPlan
  wifi_connected := d.wifiConnected
  uptime := now / 1000

/-- The LED-update step of one stage `loop()` pass. -/
def loopTick (d : Device) (now : Nat) : Device :=
  { d with ctrl := (d.ctrl.update now).1 }

end Stage

/-! Helper lemmas about the buffer-writing primitives. -/

theorem sub32_of_le (a b : Nat) (hba : b ≤ a) (ha : a < U32) :
    sub32 a b = a - b := by
  have hb : b < U32 := lt_of_le_of_lt hba ha
  unfold sub32
  rw [Nat.mod_eq_of_lt ha, Nat.mod_eq_of_lt hb]
  have h1 : a + U32 - b = (a - b) + U32 := by omega
  rw [h1, Nat.add_mod_right, Nat.mod_eq_of_lt (by omega)]

theorem writeEach_length (buf : List CRGB) (idxs : List Nat) (f : Nat → CRGB) :
    (writeEach buf idxs f).length = buf.length := by
  induction idxs generalizing buf with
  | nil => rfl
  | cons i rest ih =>
      simp only [writeEach, List.foldl_cons] at *
      rw [ih]
      simp [setLed]

theorem writeEach_append (buf : List CRGB) (l1 l2 : List Nat) (f : Nat → CRGB) :
    writeEach buf (l1 ++ l2) f = writeEach (writeEach buf l1 f) l2 f := by
  simp [writeEach, List.foldl_append]

theorem writeEach_range_getElem (f : Nat → CRGB) (n : Nat) (buf : List CRGB)
    (i : Nat) :
    (writeEach buf (List.range n) f)[i]? =
      if i < n ∧ i < buf.length then some (f i) else buf[i]? := by
  induction n with
  | zero => simp [writeEach]
  | succ n ih =>
      rw [List.range_succ, writeEach_append]
      simp only [writeEach, List.foldl_cons, List.foldl_nil, setLed]
      rw [show List.foldl (fun b i => b.set i (f i)) buf (List.range n) =
            writeEach buf (List.range n) f from rfl]
      rw [List.getElem?_set]
      rw [writeEach_length]
      by_cases hni : n = i
      · subst hni
        rw [if_pos rfl]
        by_cases hlen : n < buf.length
        · rw [if_pos hlen, if_pos (by omega)]
        · rw [if_neg hlen, if_neg (by omega)]
          exact (List.getElem?_eq_none (by omega)).symm
      · rw [if_neg hni, ih]
        by_cases hin : i < n
        · have : i < n + 1 := by omega
          simp [hin, this]
        · have : (i < n + 1 ∧ i < buf.length) ↔ (i < n ∧ i < buf.length) := by
            omega
          rw [if_congr this rfl rfl]

theorem setAllLeds_length (buf : List CRGB) (n : Nat) (c : CRGB) :
    (setAllLeds buf n c).length = buf.length := writeEach_length ..

theorem setAllLeds_eq_replicate (buf : List CRGB) (n : Nat) (c : CRGB)
    (h : buf.length = n) : setAllLeds buf n c = List.replicate n c := by
  apply List.ext_getElem?
  intro i
  rw [setAllLeds, writeEach_range_getElem, List.getElem?_replicate]
  by_cases hi : i < n
  · simp [hi, h]
  · rw [if_neg (by omega), if_neg hi, List.getElem?_eq_none (by omega)]

theorem writePixels_length (buf : List CRGB) (ps : List (Nat × CRGB)) :
    (writePixels buf ps).length = buf.length := by
  induction ps generalizing buf with
  | nil => rfl
  | cons p rest ih =>
      simp only [writePixels, List.foldl_cons] at *
      rw [ih]
      simp [setLed]

/-! Helper lemmas about the crown and stage update steps. -/

theorem crown_update_button_keeps (s : Crown.LEDPlans) (now : Nat)
    (rng : Nat → Nat) (hplan : s.currentPlan = .PLAN_BUTTON)
    (hle : s.buttonStartTime ≤ now) (hlt : now < U32)
    (h10 : now - s.buttonStartTime ≤ 10000) :
    (s.update now rng).1.currentPlan = .PLAN_BUTTON := by
  have he : sub32 now s.buttonStartTime = now - s.buttonStartTime :=
    sub32_of_le now s.buttonStartTime hle hlt
  simp only [Crown.LEDPlans.update, hplan, Crown.LEDPlans.updateButton, he,
    if_neg (not_lt.mpr h10)]

theorem crown_update_button_expires (s : Crown.LEDPlans) (now : Nat)
    (rng : Nat → Nat) (hplan : s.currentPlan = .PLAN_BUTTON)
    (hle : s.buttonStartTime ≤ now) (hlt : now < U32)
    (h10 : 10000 < now - s.buttonStartTime) :
    (s.update now rng).1.currentPlan = .PLAN_IDLE ∧
    (s.update now rng).1.leds = s.leds ∧
    (s.update now rng).2 = [] := by
  have he : sub32 now s.buttonStartTime = now - s.buttonStartTime :=
    sub32_of_le now s.buttonStartTime hle hlt
  simp only [Crown.LEDPlans.update, hplan, Crown.LEDPlans.updateButton, he,
    if_pos h10]
  refine ⟨?_, ?_, ?_⟩ <;> trivial

theorem crown_update_nonbutton (s : Crown.LEDPlans) (now : Nat)
    (rng : Nat → Nat) (hplan : s.currentPlan ≠ .PLAN_BUTTON) :
    (s.update now rng).1.currentPlan = s.currentPlan := by
  cases h : s.currentPlan with
  | PLAN_IDLE => simp only [Crown.LEDPlans.update, h, Crown.LEDPlans.updateIdle]
  | PLAN_BUTTON => exact absurd h hplan
  | PLAN_WIFI_FALLBACK =>
      simp only [Crown.LEDPlans.update, h, Crown.LEDPlans.updateWiFiFallback]

theorem stage_update_skip_expires (s : Stage.LEDPlans) (now : Nat)
    (hplan : s.currentPlan = .PLAN_SKIP)
    (hle : s.skipStartTime ≤ now) (hlt : now < U32)
    (h600 : 600 ≤ now - s.skipStartTime) :
    (s.update now).1.currentPlan = .PLAN_IDLE ∧
    (s.update now).1.leds = s.leds ∧
    (s.update now).2 = [] := by
  have he : sub32 now s.skipStartTime = now - s.skipStartTime :=
    sub32_of_le now s.skipStartTime hle hlt
  simp only [Stage.LEDPlans.update, hplan, Stage.LEDPlans.updateSkip, he,
    if_neg (not_lt.mpr (by omega : (150 : Nat) ≤ now - s.skipStartTime)),
    if_neg (not_lt.mpr (by omega : (300 : Nat) ≤ now - s.skipStartTime)),
    if_neg (not_lt.mpr (by omega : (450 : Nat) ≤ now - s.skipStartTime)),
    if_neg (not_lt.mpr (by omega : (600 : Nat) ≤ now - s.skipStartTime))]
  refine ⟨?_, ?_, ?_⟩ <;> trivial

theorem addGlitter_length (buf : List CRGB) (c : Nat) (rng : Nat → Nat)
    (k : Nat) : (Crown.addGlitter buf c rng k).1.length = buf.length := by
  unfold Crown.addGlitter
  split
  · simp [setLed]
  · rfl

theorem addGlitter_writes (buf : List CRGB) (c : Nat) (rng : Nat → Nat)
    (k : Nat) : ∀ i ∈ (Crown.addGlitter buf c rng k).2,
      i < Crown.NUM_LEDS := by
  unfold Crown.addGlitter
  split
  · intro i hi
    simp only [List.mem_singleton] at hi
    subst hi
    exact Nat.mod_lt _ (by decide)
  · intro i hi
    simp at hi

theorem crown_updateIdle_length (s : Crown.LEDPlans) :
    (s.updateIdle).1.leds.length = s.leds.length := by
  simp only [Crown.LEDPlans.updateIdle]
  exact setAllLeds_length ..

theorem crown_updateIdle_writes (s : Crown.LEDPlans) :
    ∀ i ∈ (s.updateIdle).2, i < Crown.NUM_LEDS := by
  simp only [Crown.LEDPlans.updateIdle]
  intro i hi
  exact List.mem_range.mp hi

theorem crown_updateButton_length (s : Crown.LEDPlans) (now : Nat)
    (rng : Nat → Nat) :
    (s.updateButton now rng).1.leds.length = s.leds.length := by
  simp only [Crown.LEDPlans.updateButton]
  split
  · rfl
  · simp only [addGlitter_length]
    split
    · simp [writeEach_length]
    · split
      · simp [writeEach_length]
      · split
        · simp [writeEach_length]
        · simp [writePixels_length, setAllLeds_length]

theorem crown_updateButton_writes (s : Crown.LEDPlans) (now : Nat)
    (rng : Nat → Nat) :
    ∀ i ∈ (s.updateButton now rng).2, i < Crown.NUM_LEDS := by
  simp only [Crown.LEDPlans.updateButton]
  split
  · intro i hi
    simp at hi
  · intro i hi
    simp only [List.mem_append] at hi
    rcases hi with hi | hi
    · revert hi
      split
      · intro hi
        exact List.mem_range.mp hi
      · split
        · intro hi
          exact List.mem_range.mp hi
        · split
          · intro hi
            exact List.mem_range.mp hi
          · intro hi
            simp only [List.mem_append, List.mem_range, List.map_map,
              List.mem_map, Function.comp] at hi
            rcases hi with hi | ⟨k, _, hk⟩
            · exact hi
            · rw [← hk]
              exact Nat.mod_lt _ (by decide)
    · exact addGlitter_writes _ 80 rng 1000 i hi

theorem crown_updateWiFiFallback_length (s : Crown.LEDPlans) :
    (s.updateWiFiFallback).1.leds.length = s.leds.length := by
  simp only [Crown.LEDPlans.updateWiFiFallback]
  rw [writePixels_length, setAllLeds_length]

theorem crown_updateWiFiFallback_writes (s : Crown.LEDPlans) :
    ∀ i ∈ (s.updateWiFiFallback).2, i < Crown.NUM_LEDS := by
  simp only [Crown.LEDPlans.updateWiFiFallback]
  intro i hi
  simp only [List.mem_append, List.mem_range, List.mem_map] at hi
  rcases hi with hi | ⟨⟨x, c⟩, hx, rfl⟩
  · exact hi
  · have key : ∀ j : Nat, (x, c) ∈
        (if ((s.runningPixelPos + 1) % 256 + j * 30) % Crown.NUM_LEDS <
            Crown.NUM_LEDS then
          (((s.runningPixelPos + 1) % 256 + j * 30) % Crown.NUM_LEDS,
            Crown.getPartyColor
              (((s.runningPixelHue + 5) % 256 + j * 85) % 256) 255) ::
            (List.range 3).filterMap (fun j0 =>
              if ((s.runningPixelPos + 1) % 256 + j * 30) % Crown.NUM_LEDS +
                  (j0 + 1) < Crown.NUM_LEDS then
                some ((((s.runningPixelPos + 1) % 256 + j * 30) %
                    Crown.NUM_LEDS + (j0 + 1)),
                  (Crown.getPartyColor
                    (((s.runningPixelHue + 5) % 256 + j * 85) % 256)
                    255).fadeToBlackBy ((j0 + 1) * 50))
              else none)
        else []) → x < Crown.NUM_LEDS := by
      intro j hmem
      revert hmem
      split
      · intro hmem
        rcases List.mem_cons.mp hmem with h | h
        · rw [Prod.mk.injEq] at h
          rw [h.1]
          exact Nat.mod_lt _ (by decide)
        · rcases List.mem_filterMap.mp h with ⟨j0, _, hj0⟩
          revert hj0
          split
          · intro hj0
            rw [Option.some_inj, Prod.mk.injEq] at hj0
            omega
          · intro hj0
            exact absurd hj0 (Option.noConfusion)
      · intro hmem
        exact absurd hmem (List.not_mem_nil _)
    rcases hx with (hx | hx) | hx
    · exact key 0 hx
    · exact key 1 hx
    · exact key 2 hx

/-! Claim theorems. -/

/-- C5: for a Button activation (its start recorded in
`buttonStartTime`), every `update` whose elapsed time is at most
10000 ms keeps the Button plan; the first `update` whose elapsed time
strictly exceeds 10000 ms switches to Idle and writes no pixel that
call; and an `update` of a non-Button plan never changes the plan — so
after the one expiry the plan is Idle and no further expiry can fire
until Button is activated again: exactly one expiry per activation,
never before the bound. -/
theorem button_expiry_C5 :
    ∀ (s : Crown.LEDPlans) (now : Nat) (rng : Nat → Nat),
      (s.currentPlan = .PLAN_BUTTON → s.buttonStartTime ≤ now → now < U32 →
        (now - s.buttonStartTime ≤ 10000 →
          (s.update now rng).1.currentPlan = .PLAN_BUTTON) ∧
        (10000 < now - s.buttonStartTime →
          (s.update now rng).1.currentPlan = .PLAN_IDLE ∧
          (s.update now rng).1.leds = s.leds ∧
          (s.update now rng).2 = [])) ∧
      (s.currentPlan ≠ .PLAN_BUTTON →
        (s.update now rng).1.currentPlan = s.currentPlan) := by
  intro s now rng
  refine ⟨fun hplan hle hlt => ⟨fun h10 => ?_, fun h10 => ?_⟩, fun hne => ?_⟩
  · exact crown_update_button_keeps s now rng hplan hle hlt h10
  · exact crown_update_button_expires s now rng hplan hle hlt h10
  · exact crown_update_nonbutton s now rng hne

/-- Witness for C5: Button activated at t = 0, updated at t = 10001,
lands on Idle. -/
theorem button_expiry_C5_witness :
    (((Crown.LEDPlans.init.setPlan .PLAN_BUTTON 0).update 10001
        (fun _ => 0)).1.currentPlan = .PLAN_IDLE) :=
  (((button_expiry_C5 (Crown.LEDPlans.init.setPlan .PLAN_BUTTON 0) 10001
      (fun _ => 0)).1 rfl (by decide) (by decide)).2 (by decide)).1

/-- C9: after a bounded plan self-expires inside `LEDPlans::update`
(crown Button past 10000 ms, stage Skip at 600 ms), the controller's
`getCurrentPlan()` returns Idle while the separate `currentPlan` global
of main.cpp still holds the expired plan, so GET /status keeps
reporting the expired plan; a later handler such as POST /idle then
rewrites both variables. -/
theorem status_stale_plan_C9 :
    (∀ (d : Crown.Device) (now t now2 : Nat) (rng : Nat → Nat),
      d.currentPlan = .PLAN_BUTTON → d.ctrl.currentPlan = .PLAN_BUTTON →
      d.ctrl.buttonStartTime ≤ now → now < U32 →
      10000 < now - d.ctrl.buttonStartTime →
      (Crown.loopTick d now rng).ctrl.getCurrentPlan = .PLAN_IDLE ∧
      (Crown.handleStatus (Crown.loopTick d now rng) t).current_plan =
        .PLAN_BUTTON ∧
      (Crown.handleIdle (Crown.loopTick d now rng) now2).1.currentPlan =
        .PLAN_IDLE ∧
      (Crown.handleIdle (Crown.loopTick d now rng) now2).1.ctrl.getCurrentPlan =
        .PLAN_IDLE) ∧
    (∀ (e : Stage.Device) (now t : Nat),
      e.currentPlan = .PLAN_SKIP → e.ctrl.currentPlan = .PLAN_SKIP →
      e.ctrl.skipStartTime ≤ now → now < U32 →
      600 ≤ now - e.ctrl.skipStartTime →
      (Stage.loopTick e now).ctrl.getCurrentPlan = .PLAN_IDLE ∧
      (Stage.handleStatus (Stage.loopTick e now) t).current_plan =
        .PLAN_SKIP) := by
  constructor
  · intro d now t now2 rng hmain hctrl hle hlt h10
    have h := crown_update_button_expires d.ctrl now rng hctrl hle hlt h10
    refine ⟨h.1, hmain, rfl, rfl⟩
  · intro e now t hmain hctrl hle hlt h600
    have h := stage_update_skip_expires e.ctrl now hctrl hle hlt h600
    exact ⟨h.1, hmain⟩

/-- Witness for C9: crown Button activated at t = 0 via POST /button,
expired at t = 10001; the controller is on Idle but /status still says
Button. -/
theorem status_stale_plan_C9_witness :
    (Crown.loopTick (Crown.handleButton Crown.Device.init 0).1 10001
        (fun _ => 0)).ctrl.getCurrentPlan = .PLAN_IDLE ∧
    (Crown.handleStatus (Crown.loopTick (Crown.handleButton
        Crown.Device.init 0).1 10001 (fun _ => 0)) 10002).current_plan =
      .PLAN_BUTTON :=
  ⟨(status_stale_plan_C9.1 (Crown.handleButton Crown.Device.init 0).1
      10001 10002 0 (fun _ => 0) rfl rfl (by decide) (by decide)
      (by decide)).1,
   ((status_stale_plan_C9.1 (Crown.handleButton Crown.Device.init 0).1
      10001 10002 0 (fun _ => 0) rfl rfl (by decide) (by decide)
      (by decide)).2).1⟩

/-- C1 (counterexample): the claim fails on the code.  With the OTA
update active (after `onStart`, device on the safe plan WifiFallback,
no Ended/Failed yet), POST /button is neither rejected nor ignored: the
active plan changes to Button while the update-active flag is still
set, so not every operator command is suppressed during the update. -/
theorem ota_suppression_C1_counterexample :
    (Crown.otaOnStart Crown.Device.init 1000).otaInProgress = true ∧
    (Crown.otaOnStart Crown.Device.init 1000).currentPlan =
      .PLAN_WIFI_FALLBACK ∧
    (Crown.handleButton (Crown.otaOnStart Crown.Device.init 1000)
        2000).1.currentPlan = .PLAN_BUTTON ∧
    (Crown.handleButton (Crown.otaOnStart Crown.Device.init 1000)
        2000).1.ctrl.currentPlan = .PLAN_BUTTON ∧
    (Crown.handleButton (Crown.otaOnStart Crown.Device.init 1000)
        2000).1.otaInProgress = true ∧
    Crown.LightingPlan.PLAN_BUTTON ≠ .PLAN_WIFI_FALLBACK := by
  refine ⟨rfl, rfl, rfl, rfl, rfl, by decide⟩

/-- C1 (amended): `onStart` switches to WifiFallback and sets
`otaInProgress`; while that flag is set, connectivity changes are
suppressed (the plan and the controller are untouched), but operator
commands are not — POST /idle and POST /button always switch the
plan — and a Button plan running during the update still expires to
Idle on schedule. -/
theorem ota_suppression_C1 :
    (∀ (d : Crown.Device) (now : Nat),
      (Crown.otaOnStart d now).otaInProgress = true ∧
      (Crown.otaOnStart d now).currentPlan = .PLAN_WIFI_FALLBACK ∧
      (Crown.otaOnStart d now).ctrl.currentPlan = .PLAN_WIFI_FALLBACK) ∧
    (∀ (d : Crown.Device) (wifiNow : Bool) (now : Nat),
      d.otaInProgress = true →
      (Crown.checkWiFiConnection d wifiNow now).currentPlan =
        d.currentPlan ∧
      (Crown.checkWiFiConnection d wifiNow now).ctrl = d.ctrl) ∧
    (∀ (d : Crown.Device) (now : Nat),
      (Crown.handleIdle d now).1.currentPlan = .PLAN_IDLE ∧
      (Crown.handleButton d now).1.currentPlan = .PLAN_BUTTON) ∧
    (∀ (d : Crown.Device) (now : Nat) (rng : Nat → Nat),
      d.ctrl.currentPlan = .PLAN_BUTTON → d.ctrl.buttonStartTime ≤ now →
      now < U32 → 10000 < now - d.ctrl.buttonStartTime →
      (Crown.loopTick d now rng).ctrl.currentPlan = .PLAN_IDLE) := by
  refine ⟨fun d now => ⟨rfl, rfl, rfl⟩, ?_, fun d now => ⟨rfl, rfl⟩, ?_⟩
  · intro d wifiNow now hota
    unfold Crown.checkWiFiConnection
    cases wifiNow with
    | false =>
        by_cases hw : d.wifiConnected = true
        · rw [if_neg (by simp), if_pos hw,
            if_neg (by simp [hota])]
          exact ⟨rfl, rfl⟩
        · rw [if_neg (by simp), if_neg hw]
          exact ⟨rfl, rfl⟩
    | true =>
        by_cases hw : d.wifiConnected = false
        · rw [if_pos rfl, if_pos hw, if_neg (by simp [hota])]
          exact ⟨rfl, rfl⟩
        · rw [if_pos rfl, if_neg hw]
          exact ⟨rfl, rfl⟩
  · intro d now rng hctrl hle hlt h10
    exact (crown_update_button_expires d.ctrl now rng hctrl hle hlt h10).1

/-- Witness for C1: with the update active, a connectivity check at lost
connectivity leaves the safe plan in place. -/
theorem ota_suppression_C1_witness :
    (Crown.checkWiFiConnection (Crown.otaOnStart Crown.Device.init 0)
        false 5).currentPlan =
      (Crown.otaOnStart Crown.Device.init 0).currentPlan :=
  (ota_suppression_C1.2.1 (Crown.otaOnStart Crown.Device.init 0) false 5
    rfl).1

/-- C6: a Skip activation (start recorded in `skipStartTime`) renders
every pixel white for elapsed times in [0,150) ms, black in [150,300),
white in [300,450), black in [450,600), and the first `update` with
elapsed time at least 600 ms switches to Idle writing nothing — so at
t = 620 the plan is Idle. -/
theorem skip_phases_C6 :
    ∀ (s : Stage.LEDPlans) (now : Nat),
      s.currentPlan = .PLAN_SKIP → s.skipStartTime ≤ now → now < U32 →
      s.leds.length = Stage.NUM_LEDS →
      ((now - s.skipStartTime < 150 →
        (s.update now).1.leds = List.replicate Stage.NUM_LEDS CRGB.White ∧
        (s.update now).1.currentPlan = .PLAN_SKIP) ∧
       (150 ≤ now - s.skipStartTime → now - s.skipStartTime < 300 →
        (s.update now).1.leds = List.replicate Stage.NUM_LEDS CRGB.Black ∧
        (s.update now).1.currentPlan = .PLAN_SKIP) ∧
       (300 ≤ now - s.skipStartTime → now - s.skipStartTime < 450 →
        (s.update now).1.leds = List.replicate Stage.NUM_LEDS CRGB.White ∧
        (s.update now).1.currentPlan = .PLAN_SKIP) ∧
       (450 ≤ now - s.skipStartTime → now - s.skipStartTime < 600 →
        (s.update now).1.leds = List.replicate Stage.NUM_LEDS CRGB.Black ∧
        (s.update now).1.currentPlan = .PLAN_SKIP) ∧
       (600 ≤ now - s.skipStartTime →
        (s.update now).1.currentPlan = .PLAN_IDLE ∧
        (s.update now).1.leds = s.leds ∧
        (s.update now).2 = [])) := by
  intro s now hplan hle hlt hlen
  have he : sub32 now s.skipStartTime = now - s.skipStartTime :=
    sub32_of_le now s.skipStartTime hle hlt
  refine ⟨fun h1 => ?_, fun h1 h2 => ?_, fun h1 h2 => ?_, fun h1 h2 => ?_,
    fun h1 => ?_⟩
  · simp only [Stage.LEDPlans.update, hplan, Stage.LEDPlans.updateSkip, he,
      if_pos h1]
    exact ⟨setAllLeds_eq_replicate s.leds Stage.NUM_LEDS CRGB.White hlen,
      trivial⟩
  · simp only [Stage.LEDPlans.update, hplan, Stage.LEDPlans.updateSkip, he,
      if_neg (not_lt.mpr h1), if_pos h2]
    exact ⟨setAllLeds_eq_replicate s.leds Stage.NUM_LEDS CRGB.Black hlen,
      trivial⟩
  · simp only [Stage.LEDPlans.update, hplan, Stage.LEDPlans.updateSkip, he,
      if_neg (not_lt.mpr (by omega : (150 : Nat) ≤ now - s.skipStartTime)),
      if_neg (not_lt.mpr h1), if_pos h2]
    exact ⟨setAllLeds_eq_replicate s.leds Stage.NUM_LEDS CRGB.White hlen,
      trivial⟩
  · simp only [Stage.LEDPlans.update, hplan, Stage.LEDPlans.updateSkip, he,
      if_neg (not_lt.mpr (by omega : (150 : Nat) ≤ now - s.skipStartTime)),
      if_neg (not_lt.mpr (by omega : (300 : Nat) ≤ now - s.skipStartTime)),
      if_neg (not_lt.mpr h1), if_pos h2]
    exact ⟨setAllLeds_eq_replicate s.leds Stage.NUM_LEDS CRGB.Black hlen,
      trivial⟩
  · exact stage_update_skip_expires s now hplan hle hlt h1

/-- Witness for C6: Skip activated at t = 0, updated at t = 620, lands
on Idle; and at t = 100 all pixels are white. -/
theorem skip_phases_C6_witness :
    ((Stage.LEDPlans.init.setPlan .PLAN_SKIP 0).update 620).1.currentPlan =
      .PLAN_IDLE ∧
    ((Stage.LEDPlans.init.setPlan .PLAN_SKIP 0).update 100).1.leds =
      List.replicate Stage.NUM_LEDS CRGB.White :=
  ⟨((skip_phases_C6 (Stage.LEDPlans.init.setPlan .PLAN_SKIP 0) 620 rfl
      (by decide) (by decide) (by decide)).2.2.2.2 (by decide)).1,
   ((skip_phases_C6 (Stage.LEDPlans.init.setPlan .PLAN_SKIP 0) 100 rfl
      (by decide) (by decide) (by decide)).1 (by decide)).1⟩

/-- C2 (counterexample): the claim fails on the stage device.  Activate
Show at t = 0, tick once at t = 20 (the function-local static pulse
counter of `updateShow` advances to 1), then `setPlan(PLAN_SHOW)` again
at t = 40: the pulse counter is still 1, not its canonical initial
value 0, and the next frame differs from the first frame of a fresh
activation — the animation resumes instead of restarting. -/
theorem setPlan_restart_C2_counterexample :
    ((((Stage.LEDPlans.init.setPlan .PLAN_SHOW 0).update 20).1.setPlan
        .PLAN_SHOW 40).showPulseStep = 1 ∧ (1 : Nat) ≠ 0) ∧
    (((((Stage.LEDPlans.init.setPlan .PLAN_SHOW 0).update 20).1.setPlan
        .PLAN_SHOW 40).update 60).1.leds ≠
      ((Stage.LEDPlans.init.setPlan .PLAN_SHOW 0).update 20).1.leds) := by
  refine ⟨⟨rfl, by decide⟩, by decide⟩

/-- C2 (amended): immediately after `setPlan(p)` the current plan is
`p`, the activation timestamp (`lastUpdate`, and the plan's start time
where it has one) is the `millis()` of the call, and the controller's
member animation variables for `p` are reset to their canonical initial
values — on the crown device this covers every animation variable of
every plan, so repeated `setPlan` restarts the animation there; on the
stage device the function-local static pulse counters of `updateIdle`,
`updateShow` and `updateSpecial` are not touched by `setPlan`, so those
animations resume where they left off instead of restarting. -/
theorem setPlan_restart_C2 :
    (∀ (s : Crown.LEDPlans) (p : Crown.LightingPlan) (now : Nat),
      ((s.setPlan p now).currentPlan = p ∧
       (s.setPlan p now).lastUpdate = now ∧
       (s.setPlan p now).animationStep = 0) ∧
      ((s.setPlan .PLAN_IDLE now).idleHue = 32 ∧
       (s.setPlan .PLAN_IDLE now).idleBrightness = 50 ∧
       (s.setPlan .PLAN_IDLE now).haloPulseStep = 0) ∧
      ((s.setPlan .PLAN_BUTTON now).buttonStartTime = now ∧
       (s.setPlan .PLAN_BUTTON now).buttonActive = true ∧
       (s.setPlan .PLAN_BUTTON now).partyHue = 0 ∧
       (s.setPlan .PLAN_BUTTON now).partySpeed = 0 ∧
       (s.setPlan .PLAN_BUTTON now).partyPattern = 0) ∧
      ((s.setPlan .PLAN_WIFI_FALLBACK now).fallbackHue = 32 ∧
       (s.setPlan .PLAN_WIFI_FALLBACK now).fallbackBrightness = 50 ∧
       (s.setPlan .PLAN_WIFI_FALLBACK now).fallbackPulseStep = 0 ∧
       (s.setPlan .PLAN_WIFI_FALLBACK now).runningPixelPos = 0 ∧
       (s.setPlan .PLAN_WIFI_FALLBACK now).runningPixelHue = 0)) ∧
    (∀ (t : Stage.LEDPlans) (q : Stage.LightingPlan) (now : Nat),
      ((t.setPlan q now).currentPlan = q ∧
       (t.setPlan q now).lastUpdate = now ∧
       (t.setPlan .PLAN_SKIP now).skipStartTime = now) ∧
      ((t.setPlan q now).idlePulseStep = t.idlePulseStep ∧
       (t.setPlan q now).showPulseStep = t.showPulseStep ∧
       (t.setPlan q now).specialPulseStep = t.specialPulseStep)) := by
  constructor
  · intro s p now
    refine ⟨?_, ⟨rfl, rfl, rfl⟩, ⟨rfl, rfl, rfl, rfl, rfl⟩,
      ⟨rfl, rfl, rfl, rfl, rfl⟩⟩
    cases p <;> exact ⟨rfl, rfl, rfl⟩
  · intro t q now
    cases q <;> exact ⟨⟨rfl, rfl, rfl⟩, rfl, rfl, rfl⟩

/-- C4: on a connectivity edge the crown device transitions to
WifiFallback (connectivity lost) or Idle (connectivity regained) and
the controller follows, unless the current plan is Button — then the
plan is left running — and in both directions the transition is also
suppressed while an OTA update is in progress. -/
theorem connectivity_transitions_C4 :
    ∀ (d : Crown.Device) (now : Nat),
      (d.wifiConnected = true → d.otaInProgress = false →
        d.currentPlan ≠ .PLAN_BUTTON →
        (Crown.checkWiFiConnection d false now).currentPlan =
          .PLAN_WIFI_FALLBACK ∧
        (Crown.checkWiFiConnection d false now).ctrl.currentPlan =
          .PLAN_WIFI_FALLBACK) ∧
      (d.wifiConnected = true → d.currentPlan = .PLAN_BUTTON →
        (Crown.checkWiFiConnection d false now).currentPlan =
          .PLAN_BUTTON ∧
        (Crown.checkWiFiConnection d false now).ctrl = d.ctrl) ∧
      (d.wifiConnected = false → d.otaInProgress = false →
        d.currentPlan ≠ .PLAN_BUTTON →
        (Crown.checkWiFiConnection d true now).currentPlan = .PLAN_IDLE ∧
        (Crown.checkWiFiConnection d true now).ctrl.currentPlan =
          .PLAN_IDLE) ∧
      (d.wifiConnected = false → d.currentPlan = .PLAN_BUTTON →
        (Crown.checkWiFiConnection d true now).currentPlan =
          .PLAN_BUTTON ∧
        (Crown.checkWiFiConnection d true now).ctrl = d.ctrl) ∧
      (d.otaInProgress = true →
        (Crown.checkWiFiConnection d false now).currentPlan =
          d.currentPlan ∧
        (Crown.checkWiFiConnection d true now).currentPlan =
          d.currentPlan ∧
        (Crown.checkWiFiConnection d false now).ctrl = d.ctrl ∧
        (Crown.checkWiFiConnection d true now).ctrl = d.ctrl) := by
  intro d now
  refine ⟨?_, ?_, ?_, ?_, ?_⟩
  · intro hw hota hbtn
    unfold Crown.checkWiFiConnection
    rw [if_neg (by simp), if_pos hw, if_pos ⟨hbtn, hota⟩]
    exact ⟨rfl, rfl⟩
  · intro hw hbtn
    unfold Crown.checkWiFiConnection
    rw [if_neg (by simp), if_pos hw, if_neg (by simp [hbtn])]
    exact ⟨hbtn, rfl⟩
  · intro hw hota hbtn
    unfold Crown.checkWiFiConnection
    rw [if_pos rfl, if_pos hw, if_pos ⟨hbtn, hota⟩]
    exact ⟨rfl, rfl⟩
  · intro hw hbtn
    unfold Crown.checkWiFiConnection
    rw [if_pos rfl, if_pos hw, if_neg (by simp [hbtn])]
    exact ⟨hbtn, rfl⟩
  · intro hota
    unfold Crown.checkWiFiConnection
    refine ⟨?_, ?_, ?_, ?_⟩ <;>
      · by_cases hw : d.wifiConnected <;>
          simp [hw, hota]

/-- Witness for C4: a connected, non-Button, non-OTA device loses
connectivity and lands on WifiFallback. -/
theorem connectivity_transitions_C4_witness :
    (Crown.checkWiFiConnection Crown.Device.init false 0).currentPlan =
      .PLAN_WIFI_FALLBACK :=
  ((connectivity_transitions_C4 Crown.Device.init 0).1 rfl rfl
    (by decide)).1

/-- C3: the station command-to-plan mapping is a pure static function
of the payload, independent of the prior device state: red and yellow
map to Button, green and white to Idle, blue to WifiFallback, and every
/station-mixed-color payload carrying a colors array maps to Button
whatever that array contains — so identical payloads always yield the
identical target plan. -/
theorem station_color_mapping_C3 :
    ∀ (d : Crown.Device) (doc : Crown.StationDoc) (now : Nat),
      (Crown.handleStationColor d
        (some { doc with color := some "red" }) now).1.currentPlan =
        .PLAN_BUTTON ∧
      (Crown.handleStationColor d
        (some { doc with color := some "yellow" }) now).1.currentPlan =
        .PLAN_BUTTON ∧
      (Crown.handleStationColor d
        (some { doc with color := some "green" }) now).1.currentPlan =
        .PLAN_IDLE ∧
      (Crown.handleStationColor d
        (some { doc with color := some "white" }) now).1.currentPlan =
        .PLAN_IDLE ∧
      (Crown.handleStationColor d
        (some { doc with color := some "blue" }) now).1.currentPlan =
        .PLAN_WIFI_FALLBACK ∧
      ∀ cols : List String,
        (Crown.handleStationMixedColor d
          (some { doc with colors := some cols }) now).1.currentPlan =
          .PLAN_BUTTON := by
  intro d doc now
  refine ⟨?_, ?_, ?_, ?_, ?_, fun cols => ?_⟩ <;>
    simp [Crown.handleStationColor, Crown.handleStationMixedColor]

/-- C10: a /station-color request whose body parses but whose color
field is not one of red, green, blue, yellow, white — including an
absent color field, which defaults to "unknown" — changes nothing (the
returned device state is the input state) and still answers HTTP 200
with status "success" and action_taken "led_pattern_changed". -/
theorem station_color_unrecognized_C10 :
    ∀ (d : Crown.Device) (doc : Crown.StationDoc) (now : Nat),
      doc.color.getD "unknown" ∉
        (["red", "green", "blue", "yellow", "white"] : List String) →
      Crown.handleStationColor d (some doc) now =
        (d, { code := 200, status := "success",
              action_taken := some "led_pattern_changed" }) := by
  intro d doc now h
  simp only [List.mem_cons, List.not_mem_nil, or_false, not_or] at h
  obtain ⟨h1, h2, h3, h4, h5⟩ := h
  simp [Crown.handleStationColor, h1, h2, h3, h4, h5]

/-- Witness for C10: a payload with no color field at all. -/
theorem station_color_unrecognized_C10_witness :
    Crown.handleStationColor Crown.Device.init (some {}) 0 =
      (Crown.Device.init,
       { code := 200, status := "success",
         action_taken := some "led_pattern_changed" }) :=
  station_color_unrecognized_C10 Crown.Device.init {} 0 (by decide)

/-- C7 (counterexample): the claim fails on the code.  A
/station-mixed-color payload with an *empty* colors array is not
rejected: ArduinoJson's `!colors` is false for an empty array, so the
handler answers 200 and switches the plan to Button — neither a 4xx
response nor an unchanged plan.  A /station-color payload missing its
color field is likewise answered 200, not 4xx. -/
theorem malformed_station_payload_C7_counterexample :
    ((Crown.handleStationMixedColor Crown.Device.init
        (some { colors := some [] }) 0).2.code = 200 ∧
     (Crown.handleStationMixedColor Crown.Device.init
        (some { colors := some [] }) 0).1.currentPlan = .PLAN_BUTTON ∧
     Crown.Device.init.currentPlan = .PLAN_IDLE) ∧
    ((Crown.handleStationColor Crown.Device.init (some {}) 0).2.code =
      200) := by
  refine ⟨⟨rfl, rfl, rfl⟩, rfl⟩

/-- C7 (amended): an unparseable request body is rejected with 400 and
leaves the device unchanged on both station endpoints, and a
/station-mixed-color payload whose colors field is absent is rejected
with 400 and leaves the device unchanged; but a /station-color payload
missing its color field is answered 200 (device unchanged), and a
/station-mixed-color payload with an empty colors array is answered
200 and switches the plan to Button. -/
theorem malformed_station_payload_C7 :
    ∀ (d : Crown.Device) (doc : Crown.StationDoc) (now : Nat),
      (Crown.handleStationColor d none now =
        (d, { code := 400, status := "error",
              message := some "Invalid JSON" })) ∧
      (Crown.handleStationMixedColor d none now =
        (d, { code := 400, status := "error",
              message := some "Invalid JSON" })) ∧
      (doc.colors = none →
        Crown.handleStationMixedColor d (some doc) now =
          (d, { code := 400, status := "error",
                message := some "No colors array" })) ∧
      (doc.color = none →
        Crown.handleStationColor d (some doc) now =
          (d, { code := 200, status := "success",
                action_taken := some "led_pattern_changed" })) ∧
      (doc.colors = some [] →
        (Crown.handleStationMixedColor d (some doc) now).2.code = 200 ∧
        (Crown.handleStationMixedColor d (some doc) now).1.currentPlan =
          .PLAN_BUTTON) := by
  intro d doc now
  refine ⟨rfl, rfl, fun hc => ?_, fun hc => ?_, fun hc => ?_⟩
  · simp [Crown.handleStationMixedColor, hc]
  · simp [Crown.handleStationColor, hc]
  · simp [Crown.handleStationMixedColor, hc]

/-- Witness for C7 (amended): the missing-colors rejection at a
concrete document. -/
theorem malformed_station_payload_C7_witness :
    Crown.handleStationMixedColor Crown.Device.init (some {}) 0 =
      (Crown.Device.init,
       { code := 400, status := "error",
         message := some "No colors array" }) :=
  ((malformed_station_payload_C7 Crown.Device.init {} 0).2.2.1 rfl)

/-- C8: the crown pixel buffer starts at the configured `NUM_LEDS`
length, `setPlan` never touches it, every `update` (all three
renderers, any state, any random draws) preserves its length — so it
equals the configured pixel count for the device's lifetime — and every
index written during an `update` (full repaints, comet heads taken
modulo the buffer length, their bounds-guarded trails, sparkles and
glitter) is strictly below `NUM_LEDS`. -/
theorem pixel_writes_bounded_C8 :
    ∀ (s : Crown.LEDPlans) (now : Nat) (rng : Nat → Nat),
      Crown.LEDPlans.init.leds.length = Crown.NUM_LEDS ∧
      (∀ (p : Crown.LightingPlan) (t : Nat),
        (s.setPlan p t).leds = s.leds) ∧
      (s.update now rng).1.leds.length = s.leds.length ∧
      (s.leds.length = Crown.NUM_LEDS →
        (s.update now rng).1.leds.length = Crown.NUM_LEDS) ∧
      ∀ i ∈ (s.update now rng).2, i < Crown.NUM_LEDS := by
  intro s now rng
  have hlen : (s.update now rng).1.leds.length = s.leds.length := by
    cases hplan : s.currentPlan with
    | PLAN_IDLE =>
        simp only [Crown.LEDPlans.update, hplan]
        exact crown_updateIdle_length s
    | PLAN_BUTTON =>
        simp only [Crown.LEDPlans.update, hplan]
        exact crown_updateButton_length s now rng
    | PLAN_WIFI_FALLBACK =>
        simp only [Crown.LEDPlans.update, hplan]
        exact crown_updateWiFiFallback_length s
  have hw : ∀ i ∈ (s.update now rng).2, i < Crown.NUM_LEDS := by
    cases hplan : s.currentPlan with
    | PLAN_IDLE =>
        simp only [Crown.LEDPlans.update, hplan]
        exact crown_updateIdle_writes s
    | PLAN_BUTTON =>
        simp only [Crown.LEDPlans.update, hplan]
        exact crown_updateButton_writes s now rng
    | PLAN_WIFI_FALLBACK =>
        simp only [Crown.LEDPlans.update, hplan]
        exact crown_updateWiFiFallback_writes s
  refine ⟨by simp [Crown.LEDPlans.init, Crown.NUM_LEDS], fun p t => ?_,
    hlen, fun h => by rw [hlen, h], hw⟩
  cases p <;> rfl

/-- Witness for C8: the freshly initialised controller, updated once;
index 0 is among that call's writes. -/
theorem pixel_writes_bounded_C8_witness :
    (Crown.LEDPlans.init.update 0 (fun _ => 0)).1.leds.length =
      Crown.NUM_LEDS ∧ (0 : Nat) < Crown.NUM_LEDS :=
  ⟨(pixel_writes_bounded_C8 Crown.LEDPlans.init 0
      (fun _ => 0)).2.2.2.1 (by decide),
   (pixel_writes_bounded_C8 Crown.LEDPlans.init 0
      (fun _ => 0)).2.2.2.2 0 (by decide)⟩

end Flamingods
